import Mathlib

/-!
Shallow embedding of the transcript scoring engine (`scorer.py`) of the
student-introduction scoring repository, together with theorems settling
the specification claims about it.

Modelling conventions:
* a Python string is a `List Char` (`Text` below);
* Python floats are modelled by exact rationals `ℚ` (decimal literals such
  as `0.7` denote the exact rational);
* the two external collaborators (the sentence-embedding model used for
  cosine similarity, and the grammar-checking tool) are parameters of the
  embedding, gathered in `Collaborators`; `none` models a raised exception
  or a failed initialization;
* `score_transcript` returns `Option ScoreReport`: `none` models the
  ZeroDivisionError Python raises when `duration_minutes` is `0`; every
  other division in the source is guarded by an explicit conditional,
  which the embedding reproduces;
* feedback messages are modelled by the index of the chosen message branch
  (`feedbackTier`), since the message text is a pure function of that
  branch and of numbers already present in the result.
-/

namespace Scorer

/-- A Python string, modelled as its sequence of characters. -/
abbrev Text := List Char

/-- Python `str.strip()`: remove leading and trailing whitespace. -/
def pyStrip (s : Text) : Text :=
  ((s.dropWhile Char.isWhitespace).reverse.dropWhile Char.isWhitespace).reverse

/-- Python `str.split()` with no separator: the maximal runs of
non-whitespace characters, in order. -/
def pySplit (s : Text) : List Text :=
  (List.splitOnP Char.isWhitespace s).filter (fun w => w ≠ [])

/-- Python `str.lower()` (the rubric keywords are ASCII). -/
def pyLower (s : Text) : Text := s.map Char.toLower

/-- Python space-join: concatenate the words with a single space between. -/
def joinSpace (ws : List Text) : Text := (List.intersperse [' '] ws).flatten

/-- Python `needle in hay` on strings: contiguous-substring containment. -/
def containsSub (needle : Text) : Text → Bool
  | [] => needle.isEmpty
  | c :: rest => needle.isPrefixOf (c :: rest) || containsSub needle rest

/-- Left-to-right non-overlapping occurrence count, on `fuel` extra steps;
after a match the scan resumes past the matched span. `fuel` only bounds the
recursion depth: one character is consumed per step at minimum, so any
`fuel ≥ length` computes the true count. -/
def countOccurAux (needle : Text) : ℕ → Text → ℕ
  | 0, _ => 0
  | _ + 1, [] => 0
  | fuel + 1, c :: rest =>
    if needle.isPrefixOf (c :: rest) then
      countOccurAux needle fuel (rest.drop (needle.length - 1)) + 1
    else
      countOccurAux needle fuel rest

/-- Python `hay.count(needle)` for a nonempty `needle`: the number of
non-overlapping occurrences, scanning left to right. -/
def countOccur (needle : Text) (hay : Text) : ℕ :=
  countOccurAux needle hay.length hay

/-! ### The rubric (`_initialize_rubric`) -/

/-- Weight of the Salutation criterion. -/
def salutation_weight : ℚ := 5

/-- Weight of the Content & Structure criterion. -/
def content_structure_weight : ℚ := 20

/-- Weight of the Speech Rate criterion. -/
def speech_rate_weight : ℚ := 10

/-- Weight of the Language & Grammar criterion. -/
def language_grammar_weight : ℚ := 10

/-- Weight of the Clarity criterion. -/
def clarity_weight : ℚ := 15

/-- Weight of the Engagement criterion. -/
def engagement_weight : ℚ := 15

/-- The total weight, computed in `score_transcript` as the sum of the
weights of all rubric criteria. -/
def total_weight : ℚ :=
  salutation_weight + content_structure_weight + speech_rate_weight +
    language_grammar_weight + clarity_weight + engagement_weight

/-- Greeting keywords of the Salutation criterion. -/
def salutation_keywords : List Text :=
  (["hi", "hello", "good morning", "good afternoon", "good evening",
    "good day"]).map String.toList

/-- The five element keyword groups of the Content & Structure criterion, in
the insertion order of the source dict: name, school_class, family,
location, hobbies. -/
def content_keywords : List (List Text) :=
  [ (["name", "i am", "i\x27m", "myself"]).map String.toList,
    (["school", "class", "grade", "studying", "student"]).map String.toList,
    (["family", "father", "mother", "parents", "brother", "sister",
      "siblings"]).map String.toList,
    (["from", "live", "city", "town", "village", "place"]).map String.toList,
    (["hobby", "hobbies", "enjoy", "love", "like", "interest", "passion",
      "free time"]).map String.toList ]

/-- Ordering/transition keywords of the Content & Structure criterion. -/
def order_keywords : List Text :=
  (["first", "firstly", "second", "secondly", "then", "next", "finally",
    "lastly"]).map String.toList

/-- Ideal words-per-minute of the Speech Rate criterion. -/
def ideal_wpm : ℚ := 130

/-- Lower end of the acceptable words-per-minute range. -/
def min_wpm : ℚ := 111

/-- Upper end of the acceptable words-per-minute range. -/
def max_wpm : ℚ := 160

/-- Filler words and phrases of the Clarity criterion. -/
def filler_words : List Text :=
  (["um", "uh", "like", "you know", "actually", "basically", "right",
    "i mean", "well", "kind of", "sort of"]).map String.toList

/-- Positive-tone words of the Engagement criterion. -/
def positive_words : List Text :=
  (["happy", "excited", "passionate", "love", "enjoy", "great", "wonderful",
    "amazing", "excellent", "enthusiastic"]).map String.toList

/-- Emotion keywords of the Engagement criterion (`_score_engagement`). -/
def emotion_keywords : List Text :=
  (["feel", "excited", "passionate", "enthusiastic", "proud", "grateful",
    "thankful"]).map String.toList

/-! ### Result records and collaborators -/

/-- The result dictionary of one criterion. `keywords_found` carries the list of
matched keyword strings the source attaches to the result (for Clarity, the
distinct fillers found, which the source exposes in its details); `details`
carries the numeric content of the details mapping; `feedbackTier` is the
index of the feedback message branch the source selects. -/
structure CriterionResult where
  name : String
  score : ℚ
  max_score : ℚ
  feedbackTier : ℕ
  keywords_found : List Text
  details : List (String × ℚ)

/-- The result dictionary returned by `score_transcript`. -/
structure ScoreReport where
  overall_score : ℚ
  word_count : ℕ
  wpm : ℚ
  criteria : List CriterionResult

/-- The two external collaborators of the engine.
`encodeSim a b` models encoding the two texts and taking the cosine
similarity of their embeddings; `none` models a raised exception inside
that computation. `grammarTool = none` models a failed LanguageTool
initialization; `grammarTool = some check` with `check t = none` models
`check` raising on the call. -/
structure Collaborators where
  encodeSim : Text → Text → Option ℚ
  grammarTool : Option (Text → Option ℕ)

/-- Embedding of the semantic-similarity helper: the cosine similarity clamped to be
non-negative, or the fixed default `0.5` on any failure. -/
def calculate_semantic_similarity (C : Collaborators) (text1 text2 : Text) : ℚ :=
  match C.encodeSim text1 text2 with
  | some similarity => max 0 similarity
  | none => 0.5

/-! ### The six criterion scorers -/

/-- Embedding of the salutation scorer: distinct greeting keywords occurring as substrings
of the case-folded join of the first 50 whitespace-delimited tokens. -/
def score_salutation (transcript : Text) : CriterionResult :=
  let first_part := pyLower (joinSpace ((pySplit transcript).take 50))
  let found_keywords := salutation_keywords.filter (fun kw => containsSub kw first_part)
  let score : ℚ :=
    if found_keywords.length ≥ 3 then salutation_weight
    else if found_keywords.length = 2 then salutation_weight * 0.8
    else if found_keywords.length = 1 then salutation_weight * 0.6
    else 0
  let tier : ℕ :=
    if found_keywords.length ≥ 3 then 0
    else if found_keywords.length = 2 then 1
    else if found_keywords.length = 1 then 2
    else 3
  { name := "Salutation", score := score, max_score := salutation_weight,
    feedbackTier := tier, keywords_found := found_keywords, details := [] }

/-- The fixed ideal-introduction template compared against the transcript. -/
def ideal_intro : Text := String.toList
  "My name is [name], I am [age] years old studying in [class]. I come from [location]. My family consists of my parents and siblings. In my free time, I enjoy [hobbies]."

/-- The arithmetic combining step of `_score_content_structure`:
`element_score = (elements_count / 5) * 0.7` (the source divides by
the length of the keyword-group table, which is 5), `structure_score` is `0.3` or
`0.1`, and the combined ratio is scaled by the weight 20. -/
def contentScoreFormula (elements_count : ℕ) (has_structure : Bool)
    (semantic_score : ℚ) : ℚ :=
  let element_score := ((elements_count : ℚ) / 5) * 0.7
  let structure_score : ℚ := if has_structure then 0.3 else 0.1
  let combined := (element_score + structure_score + semantic_score * 0.2) / 1.2
  combined * content_structure_weight

/-- Embedding of the content-and-structure scorer. -/
def score_content_structure (C : Collaborators) (transcript : Text) : CriterionResult :=
  let transcript_lower := pyLower transcript
  let groupFound : List Text → Bool := fun kws => kws.any (fun kw => containsSub kw transcript_lower)
  let elements_count := content_keywords.countP groupFound
  let all_keywords_found :=
    (content_keywords.map (fun kws => kws.filter (fun kw => containsSub kw transcript_lower))).flatten
  let order_words := order_keywords.filter (fun w => containsSub w transcript_lower)
  let has_structure := order_words.length > 0
  let semantic_score := calculate_semantic_similarity C transcript ideal_intro
  let score := contentScoreFormula elements_count has_structure semantic_score
  let tier : ℕ := if elements_count ≥ 4 then 0 else if elements_count ≥ 3 then 1 else 2
  { name := "Content & Structure", score := score,
    max_score := content_structure_weight, feedbackTier := tier,
    keywords_found := all_keywords_found.take 10,
    details := [("Elements found", (elements_count : ℚ)),
                ("Has structure", if has_structure then 1 else 0),
                ("Semantic similarity", semantic_score)] }

/-- Words per minute as computed in the speech-rate scorer, which recomputes
the word count by splitting the transcript: `word_count / duration_minutes`. -/
def speech_wpm (transcript : Text) (duration_minutes : ℚ) : ℚ :=
  ((pySplit transcript).length : ℚ) / duration_minutes

/-- The result dictionary `_score_speech_rate` builds once the division has
succeeded (see `score_speech_rate` for the division-by-zero case). -/
def speechRateResult (transcript : Text) (duration_minutes : ℚ) : CriterionResult :=
  let wpm := speech_wpm transcript duration_minutes
  let score : ℚ :=
    if min_wpm ≤ wpm ∧ wpm ≤ max_wpm then
      speech_rate_weight * (1 - (|wpm - ideal_wpm| / ideal_wpm) * 0.5)
    else if wpm < min_wpm then
      speech_rate_weight * (wpm / min_wpm) * 0.7
    else
      speech_rate_weight * (max_wpm / wpm) * 0.7
  let tier : ℕ :=
    if min_wpm ≤ wpm ∧ wpm ≤ max_wpm then 0 else if wpm < min_wpm then 1 else 2
  { name := "Speech Rate", score := score, max_score := speech_rate_weight,
    feedbackTier := tier, keywords_found := [],
    details := [("Words per minute", wpm)] }

/-- Embedding of the speech-rate scorer. The source divides `word_count / duration_minutes`
unconditionally; `none` models the ZeroDivisionError Python raises when
`duration_minutes = 0`. -/
def score_speech_rate (transcript : Text) (duration_minutes : ℚ) : Option CriterionResult :=
  if duration_minutes = 0 then none
  else some (speechRateResult transcript duration_minutes)

/-- The grammar half of `_score_grammar`: the pair
`(grammar_score, grammar_errors)`. When the tool is missing or its call
fails, both keep their initial values `weight * 0.6` and `0`. -/
def grammar_component (C : Collaborators) (transcript : Text) : ℚ × ℕ :=
  let word_count := (pySplit transcript).length
  match C.grammarTool with
  | none => (language_grammar_weight * 0.6, 0)
  | some check =>
    match check transcript with
    | none => (language_grammar_weight * 0.6, 0)
    | some grammar_errors =>
      let error_rate : ℚ :=
        if word_count > 0 then ((grammar_errors : ℚ) / (word_count : ℚ)) * 100 else 0
      let grammar_score :=
        if error_rate < 3 then language_grammar_weight * 0.6
        else if error_rate < 5 then language_grammar_weight * 0.5
        else if error_rate < 10 then language_grammar_weight * 0.4
        else language_grammar_weight * 0.3
      (grammar_score, grammar_errors)

/-- A word character for the TTR tokenization (Python regex `\w`). -/
def isWordChar (c : Char) : Bool := c.isAlphanum || c == '_'

/-- Python `re.findall` of word-character runs: the maximal runs of word
characters of the text. -/
def findWords (s : Text) : List Text :=
  (List.splitOnP (fun c => !isWordChar c) s).filter (fun w => w ≠ [])

/-- The type-token ratio of `_score_grammar`: distinct words over total
words of the case-folded transcript, `0` when there are no words. -/
def vocab_ttr (transcript : Text) : ℚ :=
  let words := findWords (pyLower transcript)
  if words ≠ [] then ((words.dedup.length : ℚ) / (words.length : ℚ)) else 0

/-- The vocabulary half of `_score_grammar` (depends only on the transcript,
not on any collaborator). -/
def vocab_component (transcript : Text) : ℚ :=
  let ttr := vocab_ttr transcript
  if ttr > 0.7 then language_grammar_weight * 0.4
  else if ttr > 0.5 then language_grammar_weight * 0.35
  else if ttr > 0.3 then language_grammar_weight * 0.3
  else language_grammar_weight * 0.2

/-- Embedding of the grammar scorer: the sum of the grammar and vocabulary components. -/
def score_grammar (C : Collaborators) (transcript : Text) : CriterionResult :=
  let gc := grammar_component C transcript
  let words := findWords (pyLower transcript)
  let tier : ℕ := if gc.2 = 0 then 0 else if gc.2 ≤ 2 then 1 else 2
  { name := "Language & Grammar", score := gc.1 + vocab_component transcript,
    max_score := language_grammar_weight, feedbackTier := tier,
    keywords_found := [],
    details := [("Grammar errors", (gc.2 : ℚ)),
                ("Vocabulary richness (TTR)", vocab_ttr transcript),
                ("Unique words", (words.dedup.length : ℚ))] }

/-- Embedding of the clarity scorer. -/
def score_clarity (transcript : Text) : CriterionResult :=
  let transcript_lower := pyLower transcript
  let word_count := (pySplit transcript).length
  let filler_count := (filler_words.map (fun f => countOccur f transcript_lower)).sum
  let found_fillers := filler_words.filter (fun f => countOccur f transcript_lower > 0)
  let fillerPct : ℚ :=
    if word_count > 0 then ((filler_count : ℚ) / (word_count : ℚ)) * 100 else 0
  let score : ℚ :=
    if fillerPct < 2 then clarity_weight
    else if fillerPct < 5 then clarity_weight * 0.8
    else if fillerPct < 10 then clarity_weight * 0.6
    else clarity_weight * 0.4
  let tier : ℕ :=
    if fillerPct < 2 then 0 else if fillerPct < 5 then 1
    else if fillerPct < 10 then 2 else 3
  { name := "Clarity", score := score, max_score := clarity_weight,
    feedbackTier := tier, keywords_found := found_fillers,
    details := [("Filler words count", (filler_count : ℚ)),
                ("Filler word ratio", fillerPct)] }

/-- Embedding of the engagement scorer. -/
def score_engagement (transcript : Text) : CriterionResult :=
  let transcript_lower := pyLower transcript
  let found_positive := positive_words.filter (fun w => containsSub w transcript_lower)
  let positive_count := found_positive.length
  let has_emotion := emotion_keywords.any (fun w => containsSub w transcript_lower)
  let positive_score := min ((positive_count : ℚ) / 3) 1 * 0.7
  let emotion_score : ℚ := if has_emotion then 0.3 else 0.1
  let score := (positive_score + emotion_score) * engagement_weight
  let tier : ℕ :=
    if positive_count ≥ 3 ∧ has_emotion then 0
    else if positive_count ≥ 2 then 1
    else if positive_count ≥ 1 then 2
    else 3
  { name := "Engagement", score := score, max_score := engagement_weight,
    feedbackTier := tier, keywords_found := found_positive,
    details := [("Positive words", (positive_count : ℚ)),
                ("Shows emotion", if has_emotion then 1 else 0)] }

/-- Embedding of `score_transcript`, the engine entry point. The transcript is stripped
once at entry and the stripped text is what every scorer (and both
collaborators) receives. `none` models the ZeroDivisionError the speech-rate
scorer raises when `duration_minutes = 0`. -/
def score_transcript (C : Collaborators) (transcript : Text)
    (duration_minutes : ℚ) : Option ScoreReport :=
  let t := pyStrip transcript
  let word_count := (pySplit t).length
  match score_speech_rate t duration_minutes with
  | none => none
  | some speech_rate_result =>
    let salutation_result := score_salutation t
    let content_result := score_content_structure C t
    let grammar_result := score_grammar C t
    let clarity_result := score_clarity t
    let engagement_result := score_engagement t
    let total_weighted_score := salutation_result.score + content_result.score +
      speech_rate_result.score + grammar_result.score + clarity_result.score +
      engagement_result.score
    some { overall_score := (total_weighted_score / total_weight) * 100,
           word_count := word_count,
           wpm := speech_wpm t duration_minutes,
           criteria := [salutation_result, content_result, speech_rate_result,
                        grammar_result, clarity_result, engagement_result] }

/-- A 130-word transcript ("a a ... a "), used to exercise the ideal
speech rate of 130 words over 1.0 minute. -/
def demo_transcript_130 : Text := (List.replicate 130 ['a', ' ']).flatten

/-- A collaborator bundle in fully degraded mode: the embedding call raises
(so semantic similarity falls back to 0.5) and the grammar tool failed to
initialize at engine construction. -/
def stubCollab : Collaborators :=
  { encodeSim := fun _ _ => none, grammarTool := none }

/-! ### Range lemmas for the six sub-scores -/

lemma salutation_score_bounds (t : Text) :
    0 ≤ (score_salutation t).score ∧ (score_salutation t).score ≤ salutation_weight := by
  simp only [score_salutation, salutation_weight]
  split_ifs <;> norm_num

lemma semantic_bounds (C : Collaborators)
    (hC : ∀ a b v, C.encodeSim a b = some v → v ≤ 1) (a b : Text) :
    0 ≤ calculate_semantic_similarity C a b ∧ calculate_semantic_similarity C a b ≤ 1 := by
  unfold calculate_semantic_similarity
  cases h : C.encodeSim a b with
  | none => norm_num
  | some v => exact ⟨le_max_left 0 v, max_le (by norm_num) (hC a b v h)⟩

lemma contentScoreFormula_bounds (e : ℕ) (hs : Bool) (s : ℚ)
    (he : e ≤ 5) (hs0 : 0 ≤ s) (hs1 : s ≤ 1) :
    0 ≤ contentScoreFormula e hs s ∧
      contentScoreFormula e hs s ≤ content_structure_weight := by
  have h0 : (0 : ℚ) ≤ (e : ℚ) := Nat.cast_nonneg e
  have h5 : (e : ℚ) ≤ 5 := by exact_mod_cast he
  unfold contentScoreFormula content_structure_weight
  cases hs <;> simp only [Bool.false_eq_true, if_true, if_false, ite_true, ite_false] <;>
    constructor <;> (ring_nf; linarith)

lemma content_score_bounds (C : Collaborators)
    (hC : ∀ a b v, C.encodeSim a b = some v → v ≤ 1) (t : Text) :
    0 ≤ (score_content_structure C t).score ∧
      (score_content_structure C t).score ≤ content_structure_weight := by
  have hsem := semantic_bounds C hC t ideal_intro
  simp only [score_content_structure]
  refine contentScoreFormula_bounds _ _ _ ?_ hsem.1 hsem.2
  exact le_trans (List.countP_le_length _) (by norm_num [content_keywords])

lemma speechRateResult_bounds (t : Text) (d : ℚ) (hd : 0 < d) :
    0 ≤ (speechRateResult t d).score ∧
      (speechRateResult t d).score ≤ speech_rate_weight := by
  have hw : 0 ≤ speech_wpm t d := div_nonneg (Nat.cast_nonneg _) hd.le
  simp only [speechRateResult, min_wpm, max_wpm, ideal_wpm, speech_rate_weight]
  split_ifs with h1 h2
  · obtain ⟨hl, hr⟩ := h1
    have habs : |speech_wpm t d - 130| ≤ 30 := abs_le.mpr ⟨by linarith, by linarith⟩
    have habs0 : 0 ≤ |speech_wpm t d - 130| := abs_nonneg _
    set a := |speech_wpm t d - 130| with ha
    constructor <;> (ring_nf; linarith)
  · have h3 : 0 ≤ speech_wpm t d / 111 := by positivity
    have h4 : speech_wpm t d / 111 < 1 := by
      rw [div_lt_one (by norm_num)]; exact h2
    constructor <;> (ring_nf; linarith)
  · push_neg at h1 h2
    have h160 : (160 : ℚ) < speech_wpm t d := h1 h2
    have h5 : 0 ≤ (160 : ℚ) / speech_wpm t d := by positivity
    have h6 : (160 : ℚ) / speech_wpm t d ≤ 1 := by
      rw [div_le_one (by linarith)]; linarith
    ring_nf at h5 h6 ⊢
    constructor <;> linarith

lemma grammar_component_bounds (C : Collaborators) (t : Text) :
    3 ≤ (grammar_component C t).1 ∧ (grammar_component C t).1 ≤ 6 := by
  have htier : ∀ r : ℚ,
      3 ≤ (if r < 3 then (6 : ℚ) else if r < 5 then 5 else if r < 10 then 4 else 3) ∧
      (if r < 3 then (6 : ℚ) else if r < 5 then 5 else if r < 10 then 4 else 3) ≤ 6 :=
    fun r => by split_ifs <;> norm_num
  obtain ⟨enc, gt⟩ := C
  rcases gt with _ | check
  · norm_num [grammar_component, language_grammar_weight]
  · simp only [grammar_component, language_grammar_weight]
    rcases hr : check t with _ | n
    · norm_num
    · norm_num
      exact htier _

lemma vocab_component_bounds (t : Text) :
    2 ≤ vocab_component t ∧ vocab_component t ≤ 4 := by
  simp only [vocab_component, language_grammar_weight]
  split_ifs <;> norm_num

lemma grammar_score_bounds (C : Collaborators) (t : Text) :
    0 ≤ (score_grammar C t).score ∧
      (score_grammar C t).score ≤ language_grammar_weight := by
  have h1 := grammar_component_bounds C t
  have h2 := vocab_component_bounds t
  simp only [score_grammar, language_grammar_weight]
  constructor <;> linarith [h1.1, h1.2, h2.1, h2.2]

lemma clarity_score_bounds (t : Text) :
    0 ≤ (score_clarity t).score ∧ (score_clarity t).score ≤ clarity_weight := by
  simp only [score_clarity, clarity_weight]
  split_ifs <;> norm_num

lemma engagement_score_bounds (t : Text) :
    0 ≤ (score_engagement t).score ∧
      (score_engagement t).score ≤ engagement_weight := by
  simp only [score_engagement, engagement_weight]
  set m := min (((positive_words.filter (fun w =>
      containsSub w (pyLower t))).length : ℚ) / 3) 1 with hm
  have h1 : 0 ≤ m := le_min (by positivity) zero_le_one
  have h2 : m ≤ 1 := min_le_right _ _
  split_ifs <;> constructor <;> (ring_nf; linarith)

/-- The value `score_transcript` returns whenever the duration is nonzero. -/
lemma score_transcript_eq (C : Collaborators) (t : Text) (d : ℚ) (hd : d ≠ 0) :
    score_transcript C t d = some {
      overall_score := (((score_salutation (pyStrip t)).score +
        (score_content_structure C (pyStrip t)).score +
        (speechRateResult (pyStrip t) d).score +
        (score_grammar C (pyStrip t)).score +
        (score_clarity (pyStrip t)).score +
        (score_engagement (pyStrip t)).score) / total_weight) * 100,
      word_count := (pySplit (pyStrip t)).length,
      wpm := speech_wpm (pyStrip t) d,
      criteria := [score_salutation (pyStrip t), score_content_structure C (pyStrip t),
        speechRateResult (pyStrip t) d, score_grammar C (pyStrip t),
        score_clarity (pyStrip t), score_engagement (pyStrip t)] } := by
  simp only [score_transcript, score_speech_rate, if_neg hd]

/-! ### The claims -/

/-- C1: for every transcript and every duration > 0 (with the embedding
collaborator honouring its contract of returning a cosine similarity ≤ 1),
the overall score returned by `score_transcript` equals exactly
100 × (sum of the six criterion scores) / 75 and lies in [0, 100]. -/
theorem c1_overall_score_formula (C : Collaborators) (t : Text) (d : ℚ)
    (hd : 0 < d) (hC : ∀ a b v, C.encodeSim a b = some v → v ≤ 1) :
    ∃ r, score_transcript C t d = some r ∧
      r.overall_score = 100 * ((r.criteria.map CriterionResult.score).sum) / 75 ∧
      0 ≤ r.overall_score ∧ r.overall_score ≤ 100 := by
  have b1 := salutation_score_bounds (pyStrip t)
  have b2 := content_score_bounds C hC (pyStrip t)
  have b3 := speechRateResult_bounds (pyStrip t) d hd
  have b4 := grammar_score_bounds C (pyStrip t)
  have b5 := clarity_score_bounds (pyStrip t)
  have b6 := engagement_score_bounds (pyStrip t)
  simp only [salutation_weight, content_structure_weight, speech_rate_weight,
    language_grammar_weight, clarity_weight, engagement_weight] at b1 b2 b3 b4 b5 b6
  have h75 : total_weight = 75 := by
    norm_num [total_weight, salutation_weight, content_structure_weight,
      speech_rate_weight, language_grammar_weight, clarity_weight, engagement_weight]
  refine ⟨_, score_transcript_eq C t d hd.ne', ?_, ?_, ?_⟩
  · dsimp only
    simp only [List.map_cons, List.map_nil, List.sum_cons, List.sum_nil, h75]
    ring
  · dsimp only
    rw [h75]
    linarith [b1.1, b2.1, b3.1, b4.1, b5.1, b6.1]
  · dsimp only
    rw [h75]
    linarith [b1.2, b2.2, b3.2, b4.2, b5.2, b6.2]

/-- Witness for C1 at a concrete input. -/
theorem c1_overall_score_formula_witness :
    ∃ r, score_transcript stubCollab ("hi".toList) 1 = some r ∧
      r.overall_score = 100 * ((r.criteria.map CriterionResult.score).sum) / 75 ∧
      0 ≤ r.overall_score ∧ r.overall_score ≤ 100 :=
  c1_overall_score_formula stubCollab ("hi".toList) 1 (by norm_num)
    (fun a b v h => by simp [stubCollab] at h)

/-- C2: for every transcript and every duration > 0 (embedding collaborator
honouring its ≤ 1 contract), each of the six criterion results satisfies
0 ≤ score ≤ max_score, and the six max_scores are exactly the rubric
weights, in order. -/
theorem c2_criterion_score_bounds (C : Collaborators) (t : Text) (d : ℚ)
    (hd : 0 < d) (hC : ∀ a b v, C.encodeSim a b = some v → v ≤ 1) :
    ∃ r, score_transcript C t d = some r ∧
      r.criteria.map CriterionResult.max_score =
        [salutation_weight, content_structure_weight, speech_rate_weight,
         language_grammar_weight, clarity_weight, engagement_weight] ∧
      ∀ cr ∈ r.criteria, 0 ≤ cr.score ∧ cr.score ≤ cr.max_score := by
  refine ⟨_, score_transcript_eq C t d hd.ne', rfl, ?_⟩
  intro cr hcr
  simp only [List.mem_cons, List.not_mem_nil, or_false] at hcr
  rcases hcr with h | h | h | h | h | h <;> subst h
  · exact salutation_score_bounds (pyStrip t)
  · exact content_score_bounds C hC (pyStrip t)
  · exact speechRateResult_bounds (pyStrip t) d hd
  · exact grammar_score_bounds C (pyStrip t)
  · exact clarity_score_bounds (pyStrip t)
  · exact engagement_score_bounds (pyStrip t)

/-- Witness for C2 at a concrete input. -/
theorem c2_criterion_score_bounds_witness :
    ∃ r, score_transcript stubCollab ("hello world".toList) 1 = some r ∧
      r.criteria.map CriterionResult.max_score =
        [salutation_weight, content_structure_weight, speech_rate_weight,
         language_grammar_weight, clarity_weight, engagement_weight] ∧
      ∀ cr ∈ r.criteria, 0 ≤ cr.score ∧ cr.score ≤ cr.max_score :=
  c2_criterion_score_bounds stubCollab ("hello world".toList) 1 (by norm_num)
    (fun a b v h => by simp [stubCollab] at h)

/-- C6: the keyword list of the salutation result is exactly the distinct
greeting keywords occurring as substrings of the case-folded join of the
first 50 whitespace tokens, its score follows the ladder
≥3 ↦ 5, 2 ↦ 4, 1 ↦ 3, 0 ↦ 0 on the number of matches, and the empty
transcript gets no matches, score 0 and an empty keyword list. -/
theorem c6_salutation_ladder (t : Text) :
    ((score_salutation t).keywords_found =
      salutation_keywords.filter
        (fun kw => containsSub kw (pyLower (joinSpace ((pySplit t).take 50)))) ∧
     (score_salutation t).score =
       (if 3 ≤ (score_salutation t).keywords_found.length then 5
        else if (score_salutation t).keywords_found.length = 2 then 4
        else if (score_salutation t).keywords_found.length = 1 then 3
        else 0)) ∧
    (score_salutation ([] : Text)).keywords_found = [] ∧
    (score_salutation ([] : Text)).score = 0 := by
  have hk : (salutation_keywords.filter (fun kw =>
      containsSub kw (pyLower (joinSpace ((pySplit ([] : Text)).take 50))))).length = 0 := by
    decide
  refine ⟨⟨rfl, ?_⟩, by decide, ?_⟩
  · simp only [score_salutation, salutation_weight]
    split_ifs <;> norm_num
  · simp only [score_salutation, salutation_weight, hk]
    norm_num

/-- C7: the Content & Structure combining formula is monotone in the number
of element groups found — with the structure flag and semantic similarity
fixed, strictly more elements never decreases the score. -/
theorem c7_content_monotone (e1 e2 : ℕ) (hs : Bool) (s : ℚ) (h : e1 < e2) :
    contentScoreFormula e1 hs s ≤ contentScoreFormula e2 hs s := by
  have hc : (e1 : ℚ) ≤ (e2 : ℚ) := by exact_mod_cast h.le
  unfold contentScoreFormula content_structure_weight
  cases hs <;> simp only [Bool.false_eq_true, if_true, if_false, ite_true, ite_false] <;>
    (ring_nf; linarith)

/-- Witness for C7 at concrete inputs. -/
theorem c7_content_monotone_witness :
    (1 < 2) ∧ contentScoreFormula 1 true (1/2) ≤ contentScoreFormula 2 true (1/2) :=
  ⟨by norm_num, c7_content_monotone 1 2 true (1/2) (by norm_num)⟩

/-- C9: `score_transcript` is deterministic — two calls whose collaborator
bundle, transcript and duration coincide return identical reports (the
embedding is a pure function of them). -/
theorem c9_deterministic (C C' : Collaborators) (t t' : Text) (d d' : ℚ)
    (hc : C = C') (ht : t = t') (hdur : d = d') :
    score_transcript C t d = score_transcript C' t' d' := by
  subst hc ht hdur
  rfl

/-- Witness for C9 at a concrete input. -/
theorem c9_deterministic_witness :
    score_transcript stubCollab ("hi".toList) 1 =
      score_transcript stubCollab ("hi".toList) 1 :=
  c9_deterministic stubCollab stubCollab ("hi".toList) ("hi".toList) 1 1 rfl rfl rfl

/-- C3 counterexample: at transcript "hello world" and duration −1 the
speech-rate scorer performs the division anyway and returns the
out-of-range (negative) score 10 × ((2 / −1) / 111) × 0.7 = −14/111,
refuting the claim that it treats non-positive durations as an
invalid-input condition and does not divide. -/
theorem c3_counterexample :
    (score_speech_rate ("hello world".toList) (-1)).map CriterionResult.score =
      some (-14 / 111) ∧ (-14 / 111 : ℚ) < 0 := by
  have hl : (pySplit ("hello world".toList)).length = 2 := by decide
  constructor
  · simp only [score_speech_rate, speechRateResult, speech_wpm, min_wpm, max_wpm,
      ideal_wpm, speech_rate_weight, hl]
    norm_num
  · norm_num

/-- C3 amended: the speech-rate scorer performs the division
unconditionally — duration 0 raises (no result), and a negative duration
on a nonempty transcript yields a negative out-of-range score; rejecting
non-positive durations is left to the presentation layer, whose input
widget enforces a minimum duration of 0.5 minutes. -/
theorem c3_amended_no_guard (t : Text) (d : ℚ) (hd : d < 0)
    (hwc : 0 < (pySplit t).length) :
    score_speech_rate t 0 = none ∧
      ∀ r, score_speech_rate t d = some r → r.score < 0 := by
  constructor
  · simp [score_speech_rate]
  · intro r hr
    simp only [score_speech_rate, if_neg hd.ne, Option.some.injEq] at hr
    subst hr
    have hwpm : speech_wpm t d < 0 :=
      div_neg_of_pos_of_neg (by exact_mod_cast hwc) hd
    simp only [speechRateResult, min_wpm, max_wpm, ideal_wpm, speech_rate_weight]
    split_ifs with h1 h2
    · exact absurd h1.1 (by linarith)
    · have hq : speech_wpm t d / 111 < 0 := div_neg_of_neg_of_pos hwpm (by norm_num)
      ring_nf at hq ⊢
      linarith
    · exact absurd (lt_trans hwpm (by norm_num)) h2

/-- Witness for the amended C3 at a concrete input. -/
theorem c3_amended_no_guard_witness :
    score_speech_rate ("hello world".toList) 0 = none ∧
      ∀ r, score_speech_rate ("hello world".toList) (-1) = some r → r.score < 0 :=
  c3_amended_no_guard ("hello world".toList) (-1) (by norm_num) (by decide)

/-- C4: for every transcript and duration > 0, with wpm = word count over
duration, the speech-rate score is 10 × (1 − 0.5·|wpm−130|/130) in the
range [111, 160], 10 × (wpm/111) × 0.7 below it, 10 × (160/wpm) × 0.7
above it; 130 words over 1.0 minute score exactly 10, and zero words give
wpm 0 and score 0. -/
theorem c4_speech_rate_formula (t : Text) (d : ℚ) (hd : 0 < d) :
    score_speech_rate t d = some (speechRateResult t d) ∧
    (111 ≤ speech_wpm t d ∧ speech_wpm t d ≤ 160 →
      (speechRateResult t d).score =
        10 * (1 - 0.5 * (|speech_wpm t d - 130| / 130))) ∧
    (speech_wpm t d < 111 →
      (speechRateResult t d).score = 10 * (speech_wpm t d / 111) * 0.7) ∧
    (160 < speech_wpm t d →
      (speechRateResult t d).score = 10 * (160 / speech_wpm t d) * 0.7) ∧
    ((pySplit t).length = 130 ∧ d = 1 → (speechRateResult t d).score = 10) ∧
    ((pySplit t).length = 0 →
      speech_wpm t d = 0 ∧ (speechRateResult t d).score = 0) := by
  refine ⟨by simp [score_speech_rate, hd.ne'], ?_, ?_, ?_, ?_, ?_⟩
  · intro h
    simp only [speechRateResult, min_wpm, max_wpm, ideal_wpm, speech_rate_weight]
    rw [if_pos h]
    ring
  · intro h
    simp only [speechRateResult, min_wpm, max_wpm, ideal_wpm, speech_rate_weight]
    rw [if_neg (fun hc => absurd hc.1 (by linarith)), if_pos h]
  · intro h
    simp only [speechRateResult, min_wpm, max_wpm, ideal_wpm, speech_rate_weight]
    rw [if_neg (fun hc => absurd hc.2 (by linarith)), if_neg (not_lt.mpr (by linarith))]
  · rintro ⟨h130, h1⟩
    subst h1
    have hw : speech_wpm t 1 = 130 := by simp [speech_wpm, h130]
    simp only [speechRateResult, min_wpm, max_wpm, ideal_wpm, speech_rate_weight, hw]
    rw [if_pos (by norm_num)]
    norm_num
  · intro h0
    have hw : speech_wpm t d = 0 := by simp [speech_wpm, h0]
    refine ⟨hw, ?_⟩
    simp only [speechRateResult, min_wpm, max_wpm, ideal_wpm, speech_rate_weight, hw]
    rw [if_neg (by norm_num), if_pos (by norm_num)]
    norm_num

set_option maxRecDepth 100000 in
/-- Witness for C4: the 130-word transcript over 1.0 minute scores
exactly the full 10. -/
theorem c4_speech_rate_formula_witness :
    (speechRateResult demo_transcript_130 1).score = 10 :=
  (c4_speech_rate_formula demo_transcript_130 1 (by norm_num)).2.2.2.2.1
    ⟨by decide, rfl⟩

/-- C5: when the grammar collaborator is unavailable — failed
initialization, or a check call that raises — the grammar component is
exactly 0.6 × weight (= 6) with zero reported errors, for every
transcript, and the criterion score is that fallback plus the
collaborator-independent vocabulary component. -/
theorem c5_grammar_fallback (C : Collaborators) (t : Text)
    (h : C.grammarTool = none ∨
      ∃ check, C.grammarTool = some check ∧ check t = none) :
    (grammar_component C t).1 = 0.6 * language_grammar_weight ∧
    (grammar_component C t).2 = 0 ∧
    (score_grammar C t).score =
      0.6 * language_grammar_weight + vocab_component t := by
  have hgc : grammar_component C t = (language_grammar_weight * 0.6, 0) := by
    rcases h with h | ⟨check, hc, hr⟩
    · simp only [grammar_component, h]
    · simp only [grammar_component, hc, hr]
  refine ⟨?_, ?_, ?_⟩
  · rw [hgc]
    norm_num [language_grammar_weight]
  · rw [hgc]
  · simp only [score_grammar, hgc]
    norm_num [language_grammar_weight]

/-- Witness for C5 with the grammar tool missing. -/
theorem c5_grammar_fallback_witness :
    (grammar_component stubCollab ("hello".toList)).1 =
      0.6 * language_grammar_weight ∧
    (grammar_component stubCollab ("hello".toList)).2 = 0 ∧
    (score_grammar stubCollab ("hello".toList)).score =
      0.6 * language_grammar_weight + vocab_component ("hello".toList) :=
  c5_grammar_fallback stubCollab ("hello".toList) (Or.inl rfl)

/-- C8: for a transcript with no words (empty or whitespace-only) and any
duration > 0, `score_transcript` still returns a complete report — no
exception is possible since the only unguarded division is by the
duration — with all six criterion results, word count 0 and wpm
degenerating to 0. -/
theorem c8_empty_transcript_total (C : Collaborators) (t : Text) (d : ℚ)
    (hd : 0 < d) (hw : (pySplit (pyStrip t)).length = 0) :
    ∃ r, score_transcript C t d = some r ∧ r.criteria.length = 6 ∧
      r.word_count = 0 ∧ r.wpm = 0 := by
  refine ⟨_, score_transcript_eq C t d hd.ne', rfl, hw, ?_⟩
  dsimp only
  simp [speech_wpm, hw]

/-- Witness for C8 on a whitespace-only transcript. -/
theorem c8_empty_transcript_total_witness :
    ∃ r, score_transcript stubCollab ("   ".toList) 1 = some r ∧
      r.criteria.length = 6 ∧ r.word_count = 0 ∧ r.wpm = 0 :=
  c8_empty_transcript_total stubCollab ("   ".toList) 1 (by norm_num) (by decide)

/-- Dropping a prefix whose characters all satisfy `p` does not change
`dropWhile p`. -/
lemma dropWhile_append_of_forall {p : Char → Bool} {w l : Text}
    (h : ∀ c ∈ w, p c) :
    List.dropWhile p (w ++ l) = List.dropWhile p l := by
  induction w with
  | nil => rfl
  | cons c cs ih =>
    have hc : p c := h c (List.mem_cons_self c cs)
    simp only [List.cons_append, List.dropWhile_cons, hc, if_true]
    exact ih (fun x hx => h x (List.mem_cons_of_mem c hx))

/-- Applying `dropWhile p` to a list all of whose characters satisfy `p` gives the empty list. -/
lemma dropWhile_eq_nil_of_forall {p : Char → Bool} {w : Text}
    (h : ∀ c ∈ w, p c) :
    List.dropWhile p w = [] := by
  have h2 := dropWhile_append_of_forall (l := ([] : Text)) h
  simpa using h2

/-- Stripping absorbs a leading all-whitespace block. -/
lemma pyStrip_prepend {w t : Text} (h : ∀ c ∈ w, Char.isWhitespace c) :
    pyStrip (w ++ t) = pyStrip t := by
  unfold pyStrip
  rw [dropWhile_append_of_forall h]

/-- Stripping absorbs a trailing all-whitespace block. -/
lemma pyStrip_postpend {w t : Text} (h : ∀ c ∈ w, Char.isWhitespace c) :
    pyStrip (t ++ w) = pyStrip t := by
  unfold pyStrip
  rw [List.dropWhile_append]
  by_cases he : (List.dropWhile Char.isWhitespace t).isEmpty
  · rw [if_pos he, dropWhile_eq_nil_of_forall h]
    rw [List.isEmpty_iff] at he
    rw [he]
  · rw [if_neg he, List.reverse_append,
      dropWhile_append_of_forall (fun c hc => h c (List.mem_reverse.mp hc))]

/-- C10: leading and trailing whitespace never affects the result — the
transcript is stripped once at entry, and the stripped text is what every
scorer and collaborator receives. -/
theorem c10_strip_invariance (C : Collaborators) (t w w' : Text) (d : ℚ)
    (hw : ∀ c ∈ w, Char.isWhitespace c) (hw' : ∀ c ∈ w', Char.isWhitespace c) :
    score_transcript C (w ++ t ++ w') d = score_transcript C t d := by
  have hstrip : pyStrip (w ++ t ++ w') = pyStrip t := by
    rw [List.append_assoc, pyStrip_prepend hw, pyStrip_postpend hw']
  simp only [score_transcript, hstrip]

/-- Witness for C10 at a concrete input. -/
theorem c10_strip_invariance_witness :
    score_transcript stubCollab
        ((" ".toList) ++ ("hi".toList) ++ ("\n".toList)) 1 =
      score_transcript stubCollab ("hi".toList) 1 :=
  c10_strip_invariance stubCollab ("hi".toList) (" ".toList) ("\n".toList) 1
    (by decide) (by decide)

end Scorer
